import Mathlib

/-!
Verification development for the chat endpoint in `src/app/api/graphql/route.ts`.

The file shallowly embeds the resolver variants found in that file:

* the tool-orchestration variant (`Mutation.chat` with the Amap tool loop),
  embedded as `toolChat` together with the tool executors `amapGeocode`,
  `amapSearchPOI` and `amapGetRoute`;
* the `ctx.env` variant (plain Responses API call, history filter, catch
  handler that surfaces `error.message`), embedded as `ctxEnvChat`;
* the `getOpenAI` variant (credential check returning a configuration
  message), embedded as `getOpenAIChat`.

External effects (the OpenAI completion service and `fetch` to the Amap REST
API) are modelled as explicit oracle functions returning `Except TsError _`,
where a `.error` value models a thrown JavaScript exception that the
surrounding `try`/`catch` observes.  Each embedded entry point additionally
returns the list of outbound calls it performed, in order, so that theorems
can speak about which backends were contacted and with which payloads.
-/

/-- A JavaScript error value as observed by the catch handlers in the source,
which only ever read the optional `message` field of the thrown value. -/
structure TsError where
  message : Option String
  deriving DecidableEq

/-- An HTTP request issued to the Amap REST API: the path after the host
(`https://restapi.amap.com/`) and the query parameters in the order in which
`URLSearchParams` serializes them. -/
structure HttpReq where
  path : String
  params : List (String × String)
  deriving DecidableEq

/-- The body of an Amap HTTP response, abstracted by exactly the two
projections the source code applies to it: `JSON.stringify(data)` of the
parsed body, and `data?.geocodes?.[0]?.location` when that value is a string
(`none` when the chain is absent or not a string). -/
structure FetchResp where
  serialized : String
  geocodesFirstLocation : Option String
  deriving DecidableEq

/-- JavaScript string truthiness applied to an optional string: `undefined`
and the empty string are falsy. -/
def truthyStr : Option String → Option String
  | none => none
  | some s => if s = "" then none else some s

/-- JavaScript number truthiness applied to an optional number: `undefined`
and `0` are falsy. -/
def truthyInt : Option Int → Option Int
  | none => none
  | some n => if n = 0 then none else some n

/-- JavaScript `a || b` on optional strings: the left value when truthy,
otherwise the right value. -/
def jsOrStr (a b : Option String) : Option String :=
  match truthyStr a with
  | some k => some k
  | none => b

/-- The string a missing (`undefined`) value turns into when JavaScript
coerces it via `ToString`, as `URLSearchParams` record initialization and
template literals do. -/
def jsUndef : Option String → String
  | none => "undefined"
  | some s => s

/-- The exact text `JSON.stringify({error: msg})` produces for the error
objects built in the executors. -/
def jsonErrorPayload (msg : String) : String :=
  "\x7b\"error\":\"" ++ msg ++ "\"\x7d"

/-- The arguments object obtained from `JSON.parse(toolCall.function.arguments)`,
restricted to the fields the dispatch code reads.  Every field is optional
because the model may omit any of them. -/
structure ToolArgs where
  keywords : Option String := none
  city : Option String := none
  page : Option Int := none
  offset : Option Int := none
  origin : Option String := none
  destination : Option String := none
  mode : Option String := none
  address : Option String := none
  deriving DecidableEq

/-- The `function` field of a tool call: the tool name and the parsed form of
the JSON `arguments` string (`none` when `JSON.parse` would throw). -/
structure ToolCallFn where
  name : String
  arguments : Option ToolArgs
  deriving DecidableEq

/-- A tool call entry of the first completion response.  `other` models an
entry whose `type` is not `"function"`, which the loop skips. -/
inductive ToolCall where
  | function (id : String) (fn : ToolCallFn)
  | other (id : String)
  deriving DecidableEq

/-- The call id of a tool call. -/
def ToolCall.cid : ToolCall → String
  | .function i _ => i
  | .other i => i

/-- `choices[0].message` of a chat completion: nullable text content and the
optional `tool_calls` array. -/
structure ChatMessage where
  content : Option String
  tool_calls : Option (List ToolCall)
  deriving DecidableEq

/-- A caller-supplied history turn (`MessageInput` of the GraphQL schema). -/
structure HistTurn where
  role : String
  content : String
  deriving DecidableEq

/-- An entry of the `messages` array sent to the completion service: a plain
`{role, content}` turn, the assistant message carrying tool calls that is
pushed back verbatim, or a `{tool_call_id, role, name, content}` tool-result
message. -/
inductive ConvEntry where
  | turn (role content : String)
  | assistantToolMsg (msg : ChatMessage)
  | toolMsg (tool_call_id role name content : String)
  deriving DecidableEq

/-- One element pushed onto the `toolResults` array of the orchestrator. -/
structure ToolResult where
  tool_call_id : String
  role : String
  name : String
  content : String
  deriving DecidableEq

/-- The value a resolver returns to the GraphQL layer. -/
structure ChatResponse where
  content : Option String
  toolCalls : List String
  deriving DecidableEq

/-- An outbound call performed while handling one chat request: a chat
completion call (pass 1 or 2) with its message list, a `fetch` to the Amap
REST API, or a Responses API call with its plain-text input. -/
inductive Event where
  | completionCall (pass : Nat) (messages : List ConvEntry)
  | httpFetch (req : HttpReq)
  | responsesCall (input : String)
  deriving DecidableEq

/-- The external collaborators of the tool-orchestration variant: the two chat
completion calls and `fetch`.  A `.error` result models a thrown exception. -/
structure Oracle where
  complete1 : List ConvEntry → Except TsError ChatMessage
  complete2 : List ConvEntry → Except TsError ChatMessage
  fetch : HttpReq → Except TsError FetchResp

/-- A Responses API result, abstracted by the only field the code reads
(`output_text` when it is a string). -/
structure RespObj where
  output_text : Option String
  deriving DecidableEq

/-- `extractOutputText`: `typeof o.output_text === "string" ? o.output_text : ""`. -/
def extractOutputText (resp : RespObj) : String :=
  resp.output_text.getD ""

/-- Whether an `Except` value is a success. -/
def exceptIsOk {ε α : Type} : Except ε α → Bool
  | .ok _ => true
  | .error _ => false

/-- The error thrown by `JSON.parse` on malformed tool-call arguments. -/
def jsonParseError : TsError :=
  ⟨some "SyntaxError: Unexpected token in JSON"⟩

/-- The `TypeError` thrown when `toCoords` receives `undefined` and calls
`.includes` on it. -/
def typeErrorUndef : TsError :=
  ⟨some "TypeError: Cannot read properties of undefined"⟩

/-- Query parameters of the geocode request issued by `amapGeocode`:
`URLSearchParams({key, address})` plus `city` when truthy. -/
def geocodeParams (key : String) (address : Option String) (city : Option String) :
    List (String × String) :=
  [("key", key), ("address", jsUndef address)]
    ++ (match truthyStr city with
        | some c => [("city", c)]
        | none => [])

/-- The tool executor `amapGeocode` from `mcpTools`. -/
def amapGeocode (fetchO : HttpReq → Except TsError FetchResp) (amapKey : Option String)
    (address : Option String) (city : Option String) :
    Except TsError String × List Event :=
  match truthyStr amapKey with
  | none => (.ok (jsonErrorPayload "Missing AMAP_API_KEY"), [])
  | some key =>
    let req : HttpReq := ⟨"v3/geocode/geo", geocodeParams key address city⟩
    match fetchO req with
    | .error e => (.error e, [Event.httpFetch req])
    | .ok resp => (.ok resp.serialized, [Event.httpFetch req])

/-- Query parameters of the POI-search request issued by `amapSearchPOI`:
`URLSearchParams({key, keywords, extensions: "all"})` plus `city`, `page`,
`offset` when each is truthy. -/
def poiParams (key : String) (keywords : Option String) (city : Option String)
    (page offset : Option Int) : List (String × String) :=
  [("key", key), ("keywords", jsUndef keywords), ("extensions", "all")]
    ++ (match truthyStr city with
        | some c => [("city", c)]
        | none => [])
    ++ (match truthyInt page with
        | some p => [("page", toString p)]
        | none => [])
    ++ (match truthyInt offset with
        | some o => [("offset", toString o)]
        | none => [])

/-- The tool executor `amapSearchPOI` from `mcpTools`. -/
def amapSearchPOI (fetchO : HttpReq → Except TsError FetchResp) (amapKey : Option String)
    (keywords : Option String) (city : Option String) (page offset : Option Int) :
    Except TsError String × List Event :=
  match truthyStr amapKey with
  | none => (.ok (jsonErrorPayload "Missing AMAP_API_KEY"), [])
  | some key =>
    let req : HttpReq := ⟨"v3/place/text", poiParams key keywords city page offset⟩
    match fetchO req with
    | .error e => (.error e, [Event.httpFetch req])
    | .ok resp => (.ok resp.serialized, [Event.httpFetch req])

/-- The geocode request `toCoords` issues for a non-coordinate endpoint:
`URLSearchParams({key, address: input})`. -/
def geocodeReq (key address : String) : HttpReq :=
  ⟨"v3/geocode/geo", [("key", key), ("address", address)]⟩

/-- The inner helper `toCoords` of `amapGetRoute`: a comma-containing input is
returned verbatim; otherwise one geocode call is issued and
`gj?.geocodes?.[0]?.location` is returned when it is a string, else `""`.
An `undefined` input makes `input.includes(",")` throw a `TypeError`. -/
def toCoords (fetchO : HttpReq → Except TsError FetchResp) (key : String)
    (input : Option String) : Except TsError String × List Event :=
  match input with
  | none => (.error typeErrorUndef, [])
  | some s =>
    if s.contains ',' then (.ok s, [])
    else
      let req := geocodeReq key s
      match fetchO req with
      | .error e => (.error e, [Event.httpFetch req])
      | .ok resp => (.ok (resp.geocodesFirstLocation.getD ""), [Event.httpFetch req])

/-- The value `toCoords` resolves a defined input to, assuming the geocode
fetch does not throw (`""` both on a missing location and on a throw). -/
def toCoordsVal (fetchO : HttpReq → Except TsError FetchResp) (key s : String) : String :=
  if s.contains ',' then s
  else
    match fetchO (geocodeReq key s) with
    | .ok resp => resp.geocodesFirstLocation.getD ""
    | .error _ => ""

/-- The Amap path selected from the travel mode by the if/else chain of
`amapGetRoute`. -/
def routePath (mode : String) : String :=
  if mode = "driving" then "direction/driving"
  else if mode = "walking" then "direction/walking"
  else if mode = "bicycling" then "direction/bicycling"
  else "direction/transit/integrated"

/-- The tool executor `amapGetRoute` from `mcpTools`: resolve both endpoints
with `toCoords`, fail with a `Geocode failed` payload when either resolves to
a falsy string, otherwise issue the directions request. -/
def amapGetRoute (fetchO : HttpReq → Except TsError FetchResp) (amapKey : Option String)
    (origin destination : Option String) (mode : String) :
    Except TsError String × List Event :=
  match truthyStr amapKey with
  | none => (.ok (jsonErrorPayload "Missing AMAP_API_KEY"), [])
  | some key =>
    let oOut := toCoords fetchO key origin
    match oOut.1 with
    | .error e => (.error e, oOut.2)
    | .ok o =>
      let dOut := toCoords fetchO key destination
      match dOut.1 with
      | .error e => (.error e, oOut.2 ++ dOut.2)
      | .ok d =>
        if o = "" ∨ d = "" then
          (.ok (jsonErrorPayload "Geocode failed"), oOut.2 ++ dOut.2)
        else
          let req : HttpReq :=
            ⟨"v3/" ++ routePath mode, [("key", key), ("origin", o), ("destination", d)]⟩
          match fetchO req with
          | .error e => (.error e, oOut.2 ++ dOut.2 ++ [Event.httpFetch req])
          | .ok resp => (.ok resp.serialized, oOut.2 ++ dOut.2 ++ [Event.httpFetch req])

/-- The log line pushed for a POI-search tool call, with JavaScript template
interpolation of a possibly undefined argument. -/
def poiLogEntry (keywords : Option String) : String :=
  "Using Tool: Amap POI (\"" ++ jsUndef keywords ++ "\")"

/-- The log line pushed for a route-planning tool call. -/
def routeLogEntry (origin destination : Option String) : String :=
  "Using Tool: Amap Route (\"" ++ jsUndef origin ++ "\" → \"" ++ jsUndef destination ++ "\")"

/-- The log line pushed for a geocode tool call. -/
def geocodeLogEntry (address : Option String) : String :=
  "Using Tool: Amap Geocode (\"" ++ jsUndef address ++ "\")"

/-- One iteration of the dispatch if/else chain of the orchestrator, for a
function-typed tool call whose arguments parsed: the payload assigned to
`result`, the log entry pushed (if any), and the outbound calls performed.
An unknown tool name leaves `result` as `""` and pushes no log entry. -/
def dispatchOne (fetchO : HttpReq → Except TsError FetchResp) (amapKey : Option String)
    (name : String) (args : ToolArgs) :
    Except TsError (String × Option String) × List Event :=
  if name == "amapSearchPOI" then
    let r := amapSearchPOI fetchO amapKey args.keywords args.city args.page args.offset
    (r.1.map (fun p => (p, some (poiLogEntry args.keywords))), r.2)
  else if name == "amapGetRoute" then
    let r := amapGetRoute fetchO amapKey args.origin args.destination (args.mode.getD "driving")
    (r.1.map (fun p => (p, some (routeLogEntry args.origin args.destination))), r.2)
  else if name == "amapGeocode" then
    let r := amapGeocode fetchO amapKey args.address args.city
    (r.1.map (fun p => (p, some (geocodeLogEntry args.address))), r.2)
  else
    (.ok ("", none), [])

/-- The `for (const toolCall of toolCalls)` loop of the orchestrator:
non-function entries are skipped with `continue`; for each function entry the
arguments are parsed (a parse failure throws), the dispatch chain runs, one
`ToolResult` is pushed, and the log entries accumulate.  Returns the
`toolResults` and `toolCallLogs` arrays (or the thrown error) together with
the outbound calls performed. -/
def runToolLoop (fetchO : HttpReq → Except TsError FetchResp) (amapKey : Option String) :
    List ToolCall → Except TsError (List ToolResult × List String) × List Event
  | [] => (.ok ([], []), [])
  | ToolCall.other _ :: rest => runToolLoop fetchO amapKey rest
  | ToolCall.function cid fn :: rest =>
    match fn.arguments with
    | none => (.error jsonParseError, [])
    | some args =>
      let step := dispatchOne fetchO amapKey fn.name args
      match step.1 with
      | .error e => (.error e, step.2)
      | .ok pr =>
        let restOut := runToolLoop fetchO amapKey rest
        match restOut.1 with
        | .error e => (.error e, step.2 ++ restOut.2)
        | .ok restPair =>
          (.ok (⟨cid, "tool", fn.name, pr.1⟩ :: restPair.1, pr.2.toList ++ restPair.2),
           step.2 ++ restOut.2)

/-- The `toolResults` list produced by the loop when it succeeds (junk `[]`
otherwise); lets theorems name the results without an existential. -/
def loopResults (fetchO : HttpReq → Except TsError FetchResp) (amapKey : Option String)
    (tcs : List ToolCall) : List ToolResult :=
  match (runToolLoop fetchO amapKey tcs).1 with
  | .ok pr => pr.1
  | .error _ => []

/-- The conversation entry `messages.push(...toolResults)` adds for one
tool result. -/
def toolResultEntry (r : ToolResult) : ConvEntry :=
  ConvEntry.toolMsg r.tool_call_id r.role r.name r.content

/-- The fixed system instruction of the tool-orchestration variant. -/
def travelSystemInstruction : String :=
  "You are a travel planning assistant. Use Amap tools to search POIs and plan routes. Provide practical itineraries and step-by-step directions."

/-- The user-safe fallback text of the orchestrator catch handler. -/
def fallbackContent : String :=
  "Sorry, I encountered an error processing your request."

/-- The message list the tool-orchestration variant assembles before pass 1:
system instruction, the caller history spliced verbatim via
`...(history || [])`, and the new user turn. -/
def assembleToolChatMessages (message : String) (history : Option (List HistTurn)) :
    List ConvEntry :=
  ConvEntry.turn "system" travelSystemInstruction
    :: (history.getD []).map (fun m => ConvEntry.turn m.role m.content)
    ++ [ConvEntry.turn "user" message]

/-- The tool-orchestration variant of `Mutation.chat`: two-pass completion
with the Amap tool loop, the whole body wrapped in `try`/`catch`.  Returns
the resolver result and the outbound calls performed, in order. -/
def toolChat (ora : Oracle) (amapKey : Option String) (message : String)
    (history : Option (List HistTurn)) : ChatResponse × List Event :=
  let messages := assembleToolChatMessages message history
  let ev0 : List Event := [Event.completionCall 1 messages]
  match ora.complete1 messages with
  | .error _ => (⟨some fallbackContent, []⟩, ev0)
  | .ok msg =>
    match msg.tool_calls with
    | none => (⟨msg.content, []⟩, ev0)
    | some tcs =>
      if tcs.isEmpty then (⟨msg.content, []⟩, ev0)
      else
        let loopOut := runToolLoop ora.fetch amapKey tcs
        match loopOut.1 with
        | .error _ => (⟨some fallbackContent, []⟩, ev0 ++ loopOut.2)
        | .ok pair =>
          let messages2 := messages ++ [ConvEntry.assistantToolMsg msg]
            ++ pair.1.map toolResultEntry
          let ev2 := ev0 ++ loopOut.2 ++ [Event.completionCall 2 messages2]
          match ora.complete2 messages2 with
          | .error _ => (⟨some fallbackContent, []⟩, ev2)
          | .ok finalMsg => (⟨finalMsg.content, pair.2⟩, ev2)

/-- The history filter shared by the `ctx.env` and `getOpenAI` variants:
`Array.isArray(history) ? history.filter((m) => m.role && m.content) : []`. -/
def filteredHistory (history : Option (List HistTurn)) : List HistTurn :=
  (history.getD []).filter (fun m => m.role != "" && m.content != "")

/-- The plain-text Responses API input built by the `ctx.env` and `getOpenAI`
variants from the filtered history and the new user message. -/
def plainInput (message : String) (history : Option (List HistTurn)) : String :=
  let historyText :=
    String.intercalate "\n" ((filteredHistory history).map (fun m => m.role ++ ": " ++ m.content))
  (if historyText != "" then historyText ++ "\n" else "") ++ "user: " ++ message

/-- The configuration message of the `ctx.env` variant. -/
def ctxEnvConfigMsg : String :=
  "OpenAI API key is not configured. Set OPENAI_API_KEY in Cloudflare Secrets."

/-- The `ctx.env` variant of `Mutation.chat`: credential check via
`ctx?.env?.OPENAI_API_KEY || process.env.OPENAI_API_KEY`, one Responses API
call, and a catch handler returning `error?.message ?? fallback`. -/
def ctxEnvChat (respondO : String → Except TsError RespObj) (ctxKey procKey : Option String)
    (message : String) (history : Option (List HistTurn)) : ChatResponse × List Event :=
  match truthyStr (jsOrStr ctxKey procKey) with
  | none => (⟨some ctxEnvConfigMsg, []⟩, [])
  | some _ =>
    let input := plainInput message history
    match respondO input with
    | .error e => (⟨some (e.message.getD fallbackContent), []⟩, [Event.responsesCall input])
    | .ok resp => (⟨some (extractOutputText resp), []⟩, [Event.responsesCall input])

/-- The configuration message of the `getOpenAI` variant. -/
def getOpenAIConfigMsg : String :=
  "OpenAI API key is not configured. Set OPENAI_API_KEY in Cloudflare secrets or .dev.vars."

/-- The credential resolution of `getOpenAI`:
`ctx?.env?.OPENAI_API_KEY ?? process.env.OPENAI_API_KEY`, rejected when the
result is falsy or empty. -/
def getOpenAIKey (ctxKey procKey : Option String) : Option String :=
  truthyStr (match ctxKey with
             | some k => some k
             | none => procKey)

/-- The `getOpenAI` variant of `Mutation.chat`: `getOpenAI()` returning `null`
short-circuits to the configuration message; otherwise one Responses API call
with the same input building and catch handler as the `ctx.env` variant. -/
def getOpenAIChat (respondO : String → Except TsError RespObj) (ctxKey procKey : Option String)
    (message : String) (history : Option (List HistTurn)) : ChatResponse × List Event :=
  match getOpenAIKey ctxKey procKey with
  | none => (⟨some getOpenAIConfigMsg, []⟩, [])
  | some _ =>
    let input := plainInput message history
    match respondO input with
    | .error e => (⟨some (e.message.getD fallbackContent), []⟩, [Event.responsesCall input])
    | .ok resp => (⟨some (extractOutputText resp), []⟩, [Event.responsesCall input])

/-- Whether a tool name is one of the three registered Amap tools. -/
def knownToolName (name : String) : Bool :=
  name == "amapSearchPOI" || name == "amapGetRoute" || name == "amapGeocode"

/-- A tool name together with arguments that the dispatch chain can execute
without throwing (given a non-throwing fetch): a known name, and for
`amapGetRoute` both endpoints present so `toCoords` does not hit `undefined`. -/
def wellFormedArgs (name : String) (args : ToolArgs) : Bool :=
  name == "amapSearchPOI" || name == "amapGeocode"
    || (name == "amapGetRoute" && args.origin.isSome && args.destination.isSome)

/-- A tool call the loop turns into exactly one result and one log entry:
function-typed, parseable arguments, well-formed for its known tool name. -/
def wellFormedCall : ToolCall → Bool
  | .function _ fn =>
    match fn.arguments with
    | none => false
    | some args => wellFormedArgs fn.name args
  | .other _ => false

/-- The log entry the dispatch chain pushes for a given tool name and
arguments (junk `""` for an unknown name, which pushes nothing). -/
def dispatchLog (name : String) (args : ToolArgs) : String :=
  if name == "amapSearchPOI" then poiLogEntry args.keywords
  else if name == "amapGetRoute" then routeLogEntry args.origin args.destination
  else if name == "amapGeocode" then geocodeLogEntry args.address
  else ""

/-- The log entry a well-formed tool call produces (junk `""` otherwise). -/
def callLogStr : ToolCall → String
  | .function _ fn => dispatchLog fn.name (fn.arguments.getD {})
  | .other _ => ""

/-- An event is a geocode fetch (used to state that no directions request was
issued). -/
def isGeocodeFetch : Event → Bool
  | .httpFetch r => r.path == "v3/geocode/geo"
  | _ => false

/-- A fetch oracle that always succeeds with a body carrying no geocode
location. -/
def fetchOk : HttpReq → Except TsError FetchResp :=
  fun _ => .ok ⟨"resp", none⟩

/-- A fetch oracle that always succeeds with a body whose first geocode
location is a coordinate string. -/
def fetchOkLoc : HttpReq → Except TsError FetchResp :=
  fun _ => .ok ⟨"resp", some "116.48,39.99"⟩

/-- A concrete network error. -/
def errNet : TsError := ⟨some "connect ECONNREFUSED"⟩

/-- Builds an oracle whose completion calls return fixed values. -/
def mkOra (m1 m2 : Except TsError ChatMessage) (f : HttpReq → Except TsError FetchResp) :
    Oracle :=
  ⟨fun _ => m1, fun _ => m2, f⟩

/-- Oracle: plain-text first pass, no tool calls. -/
def oraPlain : Oracle := mkOra (.ok ⟨some "ok", none⟩) (.ok ⟨some "ok", none⟩) fetchOk

/-- Oracle: first pass requests one tool with an unregistered name. -/
def oraC1 : Oracle :=
  mkOra (.ok ⟨some "", some [ToolCall.function "id1" ⟨"weatherTool", some {}⟩]⟩)
    (.ok ⟨some "done", none⟩) fetchOk

/-- Oracle: first pass returns a null-content message with no tool calls. -/
def oraNullContent : Oracle := mkOra (.ok ⟨none, none⟩) (.ok ⟨none, none⟩) fetchOk

/-- Oracle: both completion passes throw a network error. -/
def oraFail : Oracle := mkOra (.error errNet) (.error errNet) fetchOk

/-- Oracle: the completion calls throw the error the OpenAI client raises when
no API key is configured. -/
def oraNoKey : Oracle :=
  mkOra (.error ⟨some "Missing credentials. Please pass an apiKey option."⟩)
    (.error ⟨some "Missing credentials. Please pass an apiKey option."⟩) fetchOk

/-- Oracle: first pass requests an unknown tool and then a geocode. -/
def oraUnknown : Oracle :=
  mkOra
    (.ok ⟨some "",
      some [ToolCall.function "call_1" ⟨"lookupWeather", some {}⟩,
            ToolCall.function "call_2" ⟨"amapGeocode", some { address := some "Beijing" }⟩]⟩)
    (.ok ⟨some "final", none⟩) fetchOkLoc

/-- A concrete pair of well-formed tool calls: a POI search and a geocode. -/
def twoToolCalls : List ToolCall :=
  [ToolCall.function "c1"
     ⟨"amapSearchPOI", some { keywords := some "cafes", city := some "Central Park" }⟩,
   ToolCall.function "c2" ⟨"amapGeocode", some { address := some "Beijing" }⟩]

/-- Oracle: first pass requests a POI search and a geocode. -/
def oraTwoTools : Oracle :=
  mkOra (.ok ⟨some "", some twoToolCalls⟩) (.ok ⟨some "summary", none⟩) fetchOkLoc

/-- A Responses API oracle that always throws a network error. -/
def respondFail : String → Except TsError RespObj :=
  fun _ => .error errNet

/-! ## Helper lemmas -/

lemma exceptIsOk_ok {ε α : Type} {e : Except ε α} (h : exceptIsOk e = true) :
    ∃ v, e = .ok v := by
  cases e with
  | ok v => exact ⟨v, rfl⟩
  | error x => simp [exceptIsOk] at h

lemma toCoords_eq (fetchO : HttpReq → Except TsError FetchResp) (key s : String)
    (hf : ∀ req, exceptIsOk (fetchO req) = true) :
    toCoords fetchO key (some s) =
      (.ok (toCoordsVal fetchO key s),
       if s.contains ',' then [] else [Event.httpFetch (geocodeReq key s)]) := by
  unfold toCoords toCoordsVal
  by_cases hc : s.contains ','
  · simp [hc]
  · obtain ⟨v, hv⟩ := exceptIsOk_ok (hf (geocodeReq key s))
    simp [hc, hv]

lemma toolChat_trace_head (ora : Oracle) (amapKey : Option String) (message : String)
    (history : Option (List HistTurn)) :
    ((toolChat ora amapKey message history).2).head? =
      some (Event.completionCall 1 (assembleToolChatMessages message history)) := by
  simp only [toolChat]
  repeat first | rfl | split

/-- Claim C9 (confirmed): in the POI-search executor a `page` or `offset`
argument equal to `0` behaves exactly like an absent argument — the
observable behaviour of the executor is identical, and the corresponding query
parameter is omitted from the outbound request — because the presence checks
are JavaScript truthiness checks. -/
theorem c9_poi_zero_truthiness (fetchO : HttpReq → Except TsError FetchResp)
    (amapKey : Option String) (keywords city : Option String) (page offset : Option Int) :
    amapSearchPOI fetchO amapKey keywords city (some 0) offset
      = amapSearchPOI fetchO amapKey keywords city none offset
    ∧ amapSearchPOI fetchO amapKey keywords city page (some 0)
      = amapSearchPOI fetchO amapKey keywords city page none
    ∧ (∀ key, ((poiParams key keywords city (some 0) offset).map Prod.fst).contains "page"
        = false)
    ∧ (∀ key, ((poiParams key keywords city page (some 0)).map Prod.fst).contains "offset"
        = false) := by
  refine ⟨by simp [amapSearchPOI, poiParams, truthyInt],
          by simp [amapSearchPOI, poiParams, truthyInt], ?_, ?_⟩
  · intro key
    cases hc : truthyStr city with
    | none =>
      cases ho : truthyInt offset <;>
        · simp only [poiParams, hc, ho]
          simp [truthyInt]
    | some c =>
      cases ho : truthyInt offset <;>
        · simp only [poiParams, hc, ho]
          simp [truthyInt]
  · intro key
    cases hc : truthyStr city with
    | none =>
      cases hp : truthyInt page <;>
        · simp only [poiParams, hc, hp]
          simp [truthyInt]
    | some c =>
      cases hp : truthyInt page <;>
        · simp only [poiParams, hc, hp]
          simp [truthyInt]

lemma contains_eq_true_iff (s : String) (c : Char) : s.contains c = true ↔ c ∈ s.data :=
  String.contains_iff s c

lemma ne_empty_of_contains {s : String} {c : Char} (h : s.contains c = true) : ¬(s = "") := by
  intro he
  subst he
  rw [contains_eq_true_iff] at h
  simp at h

/-- Claim C10 (confirmed): `toCoords` classifies an endpoint as
already-coordinates exactly when it contains a comma: a comma-containing
string is returned verbatim with no geocode call and no format validation
(so a route between two comma-containing strings issues only the directions
request with both strings passed through verbatim), and a comma-free string
triggers exactly one geocode call. -/
theorem c10_route_comma_classification (fetchO : HttpReq → Except TsError FetchResp)
    (key s : String) (amapKey : Option String) (origin destination mode : String) :
    (s.contains ',' = true → toCoords fetchO key (some s) = (.ok s, []))
    ∧ (s.contains ',' = false →
        (toCoords fetchO key (some s)).2 = [Event.httpFetch (geocodeReq key s)])
    ∧ (truthyStr amapKey = some key → origin.contains ',' = true →
        destination.contains ',' = true →
        (amapGetRoute fetchO amapKey (some origin) (some destination) mode).2
          = [Event.httpFetch ⟨"v3/" ++ routePath mode,
              [("key", key), ("origin", origin), ("destination", destination)]⟩]) := by
  refine ⟨?_, ?_, ?_⟩
  · intro hc
    simp [toCoords, hc]
  · intro hc
    simp only [toCoords, hc]
    cases hreq : fetchO (geocodeReq key s) <;> simp [hreq]
  · intro hkey ho hd
    have ho' : ¬(origin = "") := ne_empty_of_contains ho
    have hd' : ¬(destination = "") := ne_empty_of_contains hd
    simp only [amapGetRoute, hkey, toCoords, ho, hd, if_true]
    simp only [ho', hd', or_self, if_neg, not_false_iff, or_false, false_or]
    cases hreq : fetchO ⟨"v3/" ++ routePath mode,
        [("key", key), ("origin", origin), ("destination", destination)]⟩ <;>
      simp [hreq, ho', hd']

/-- Claim C5 (confirmed): with a configured Amap key and non-throwing
fetches, the route executor resolves each non-coordinate (comma-free)
endpoint through a geocode call, and when either endpoint resolves to no
location it returns the `Geocode failed` error payload while every outbound
call it made was a geocode request — no directions request is issued. -/
theorem c5_route_geocode_gate (fetchO : HttpReq → Except TsError FetchResp)
    (amapKey : Option String) (key origin destination mode : String)
    (hkey : truthyStr amapKey = some key)
    (hf : ∀ req, exceptIsOk (fetchO req) = true) :
    (origin.contains ',' = false →
        Event.httpFetch (geocodeReq key origin)
          ∈ (amapGetRoute fetchO amapKey (some origin) (some destination) mode).2)
    ∧ (destination.contains ',' = false →
        Event.httpFetch (geocodeReq key destination)
          ∈ (amapGetRoute fetchO amapKey (some origin) (some destination) mode).2)
    ∧ (toCoordsVal fetchO key origin = "" ∨ toCoordsVal fetchO key destination = "" →
        (amapGetRoute fetchO amapKey (some origin) (some destination) mode).1
            = .ok (jsonErrorPayload "Geocode failed")
        ∧ ((amapGetRoute fetchO amapKey (some origin) (some destination) mode).2).all
            isGeocodeFetch = true) := by
  have hto := toCoords_eq fetchO key origin hf
  have htd := toCoords_eq fetchO key destination hf
  refine ⟨?_, ?_, ?_⟩
  · intro hoc
    simp only [amapGetRoute, hkey, hto, htd]
    split
    · simp [hoc]
    · split <;> simp [hoc]
  · intro hdc
    simp only [amapGetRoute, hkey, hto, htd]
    split
    · simp [hdc]
    · split <;> simp [hdc]
  · intro hfail
    simp only [amapGetRoute, hkey, hto, htd]
    rw [if_pos hfail]
    refine ⟨rfl, ?_⟩
    by_cases hoc : origin.contains ',' <;> by_cases hdc : destination.contains ',' <;>
      simp [hoc, hdc, isGeocodeFetch, geocodeReq]

/-- Witness for `c5_route_geocode_gate`: both endpoints are plain text, the
geocode response carries no location, and no directions request occurs. -/
theorem c5_route_geocode_gate_witness :
    (amapGetRoute fetchOk (some "K") (some "Eiffel Tower") (some "Louvre") "driving").1
        = .ok (jsonErrorPayload "Geocode failed")
    ∧ Event.httpFetch (geocodeReq "K" "Eiffel Tower")
        ∈ (amapGetRoute fetchOk (some "K") (some "Eiffel Tower") (some "Louvre") "driving").2 := by
  have h := c5_route_geocode_gate fetchOk (some "K") "K" "Eiffel Tower" "Louvre" "driving"
    (by simp [truthyStr]) (fun _ => rfl)
  have hoc : ("Eiffel Tower").contains ',' = false := by
    rw [Bool.eq_false_iff]
    intro hx
    rw [contains_eq_true_iff] at hx
    simp at hx
  have hval : toCoordsVal fetchOk "K" "Eiffel Tower" = "" := by
    simp [toCoordsVal, hoc, fetchOk]
  exact ⟨(h.2.2 (Or.inl hval)).1, h.1 hoc⟩

/-- Witness for `c10_route_comma_classification`: the address text
`Paris, France` is passed through verbatim as coordinates. -/
theorem c10_route_comma_classification_witness :
    toCoords fetchOk "K" (some "Paris, France") = (.ok "Paris, France", [])
    ∧ (amapGetRoute fetchOk (some "K") (some "116.4,39.9") (some "117.2,39.1") "driving").2
        = [Event.httpFetch ⟨"v3/" ++ routePath "driving",
            [("key", "K"), ("origin", "116.4,39.9"), ("destination", "117.2,39.1")]⟩] := by
  have h := c10_route_comma_classification fetchOk "K" "Paris, France" (some "K")
    "116.4,39.9" "117.2,39.1" "driving"
  refine ⟨h.1 ?_, h.2.2 (by simp [truthyStr]) ?_ ?_⟩
  · rw [contains_eq_true_iff]
    decide
  · rw [contains_eq_true_iff]
    decide
  · rw [contains_eq_true_iff]
    decide

/-- Claim C6 (confirmed): if the first completion pass returns plain text
(no `tool_calls`, or an empty list), `chat` returns that text with
`toolCalls = []`, and the only outbound call of the whole request is the
first completion pass — no tool backend call and no second pass. -/
theorem c6_direct_no_tools (ora : Oracle) (amapKey : Option String) (message t : String)
    (history : Option (List HistTurn)) (msg : ChatMessage)
    (h1 : ora.complete1 (assembleToolChatMessages message history) = .ok msg)
    (hnc : msg.tool_calls = none ∨ msg.tool_calls = some [])
    (hct : msg.content = some t) :
    toolChat ora amapKey message history
      = (⟨some t, []⟩, [Event.completionCall 1 (assembleToolChatMessages message history)]) := by
  simp only [toolChat, h1]
  rcases hnc with h | h <;> simp [h, hct]

/-- Witness for `c6_direct_no_tools` at a concrete plain-text first pass. -/
theorem c6_direct_no_tools_witness :
    toolChat oraPlain none "hello" none
      = (⟨some "ok", []⟩, [Event.completionCall 1 (assembleToolChatMessages "hello" none)]) :=
  c6_direct_no_tools oraPlain none "hello" "ok" none ⟨some "ok", none⟩ rfl (Or.inl rfl) rfl

lemma amapSearchPOI_isOk (fetchO : HttpReq → Except TsError FetchResp)
    (amapKey keywords city : Option String) (page offset : Option Int)
    (hf : ∀ req, exceptIsOk (fetchO req) = true) :
    exceptIsOk (amapSearchPOI fetchO amapKey keywords city page offset).1 = true := by
  simp only [amapSearchPOI]
  split
  · rfl
  · split
    next e heq => exact absurd (hf _) (by rw [heq]; simp [exceptIsOk])
    next v heq => rfl

lemma amapGeocode_isOk (fetchO : HttpReq → Except TsError FetchResp)
    (amapKey address city : Option String)
    (hf : ∀ req, exceptIsOk (fetchO req) = true) :
    exceptIsOk (amapGeocode fetchO amapKey address city).1 = true := by
  simp only [amapGeocode]
  split
  · rfl
  · split
    next e heq => exact absurd (hf _) (by rw [heq]; simp [exceptIsOk])
    next v heq => rfl

lemma amapGetRoute_isOk (fetchO : HttpReq → Except TsError FetchResp)
    (amapKey : Option String) (o d mode : String)
    (hf : ∀ req, exceptIsOk (fetchO req) = true) :
    exceptIsOk (amapGetRoute fetchO amapKey (some o) (some d) mode).1 = true := by
  simp only [amapGetRoute]
  cases hk : truthyStr amapKey with
  | none => rfl
  | some key =>
    simp only [toCoords_eq fetchO key o hf, toCoords_eq fetchO key d hf]
    split
    · rfl
    · split
      next e heq => exact absurd (hf _) (by rw [heq]; simp [exceptIsOk])
      next v heq => rfl

lemma dispatchOne_known (fetchO : HttpReq → Except TsError FetchResp) (amapKey : Option String)
    (name : String) (args : ToolArgs)
    (hf : ∀ req, exceptIsOk (fetchO req) = true)
    (hwf : wellFormedArgs name args = true) :
    ∃ payload ev, dispatchOne fetchO amapKey name args
      = (.ok (payload, some (dispatchLog name args)), ev) := by
  by_cases h1 : name == "amapSearchPOI"
  · obtain ⟨v, hv⟩ := exceptIsOk_ok
      (amapSearchPOI_isOk fetchO amapKey args.keywords args.city args.page args.offset hf)
    refine ⟨v, (amapSearchPOI fetchO amapKey args.keywords args.city args.page args.offset).2, ?_⟩
    simp [dispatchOne, dispatchLog, h1, hv, Except.map]
  · by_cases h2 : name == "amapGetRoute"
    · have hn : name = "amapGetRoute" := eq_of_beq h2
      subst hn
      have hwf' : args.origin.isSome = true ∧ args.destination.isSome = true := by
        simpa [wellFormedArgs] using hwf
      obtain ⟨o, ho⟩ := Option.isSome_iff_exists.mp hwf'.1
      obtain ⟨d, hd⟩ := Option.isSome_iff_exists.mp hwf'.2
      obtain ⟨v, hv⟩ := exceptIsOk_ok
        (amapGetRoute_isOk fetchO amapKey o d (args.mode.getD "driving") hf)
      refine ⟨v, (amapGetRoute fetchO amapKey args.origin args.destination
        (args.mode.getD "driving")).2, ?_⟩
      rw [ho, hd]
      simp [dispatchOne, dispatchLog, hv, ho, hd, Except.map]
    · by_cases h3 : name == "amapGeocode"
      · obtain ⟨v, hv⟩ := exceptIsOk_ok (amapGeocode_isOk fetchO amapKey args.address args.city hf)
        refine ⟨v, (amapGeocode fetchO amapKey args.address args.city).2, ?_⟩
        simp [dispatchOne, dispatchLog, h1, h2, h3, hv, Except.map]
      · exfalso
        simp [wellFormedArgs, h1, h2, h3] at hwf

lemma runToolLoop_ok (fetchO : HttpReq → Except TsError FetchResp) (amapKey : Option String)
    (hf : ∀ req, exceptIsOk (fetchO req) = true) :
    ∀ tcs : List ToolCall, (∀ tc ∈ tcs, wellFormedCall tc = true) →
      ∃ results : List ToolResult,
        (runToolLoop fetchO amapKey tcs).1 = .ok (results, tcs.map callLogStr)
        ∧ results.map ToolResult.tool_call_id = tcs.map ToolCall.cid := by
  intro tcs
  induction tcs with
  | nil => exact fun _ => ⟨[], rfl, rfl⟩
  | cons tc rest ih =>
    intro hwf
    have htc := hwf tc (List.mem_cons_self tc rest)
    obtain ⟨results, hres, hids⟩ := ih (fun t ht => hwf t (List.mem_cons_of_mem tc ht))
    cases tc with
    | other i => simp [wellFormedCall] at htc
    | function cid fn =>
      cases harg : fn.arguments with
      | none => simp [wellFormedCall, harg] at htc
      | some args =>
        have hwfa : wellFormedArgs fn.name args = true := by
          simpa [wellFormedCall, harg] using htc
        obtain ⟨payload, ev, hd⟩ := dispatchOne_known fetchO amapKey fn.name args hf hwfa
        refine ⟨⟨cid, "tool", fn.name, payload⟩ :: results, ?_, ?_⟩
        · simp [runToolLoop, harg, hd, hres, callLogStr]
        · simp [hids, ToolCall.cid]

/-- Counterexample to claim C1 as stated: the first pass requests one tool
(`weatherTool`, a name outside the registry), yet the returned `toolCalls`
list is empty instead of having exactly one human-readable entry, because the
dispatch chain pushes a log line only for registered names. -/
theorem c1_counterexample :
    oraC1.complete1 (assembleToolChatMessages "hi" none)
      = .ok ⟨some "", some [ToolCall.function "id1" ⟨"weatherTool", some {}⟩]⟩
    ∧ (toolChat oraC1 none "hi" none).1.toolCalls = [] := by
  exact ⟨rfl, rfl⟩

/-- Claim C1 (corrected): when every requested tool call is function-typed
with a registered name, parseable arguments (and both endpoints present for
route planning), and neither the tool fetches nor the second pass throw, the
loop produces exactly one `ToolResult` per request, matched by call id in the
original request order; all of them are appended to the conversation sent to
pass 2, and `toolCalls` is exactly the list of log lines of the requests, in
request order (execution is sequential, so completion order is request
order).  With an unknown name or a non-function request the counts differ
(see the counterexample). -/
theorem c1_tool_counts (ora : Oracle) (amapKey : Option String) (message : String)
    (history : Option (List HistTurn)) (msg : ChatMessage) (tcs : List ToolCall)
    (h1 : ora.complete1 (assembleToolChatMessages message history) = .ok msg)
    (htc : msg.tool_calls = some tcs) (hne : tcs ≠ [])
    (hwf : ∀ tc ∈ tcs, wellFormedCall tc = true)
    (hf : ∀ req, exceptIsOk (ora.fetch req) = true)
    (h2 : ∀ ms, exceptIsOk (ora.complete2 ms) = true) :
    (runToolLoop ora.fetch amapKey tcs).1
        = .ok (loopResults ora.fetch amapKey tcs, tcs.map callLogStr)
    ∧ (loopResults ora.fetch amapKey tcs).length = tcs.length
    ∧ (loopResults ora.fetch amapKey tcs).map ToolResult.tool_call_id = tcs.map ToolCall.cid
    ∧ (toolChat ora amapKey message history).1.toolCalls = tcs.map callLogStr
    ∧ (tcs.map callLogStr).length = tcs.length
    ∧ Event.completionCall 2
        (assembleToolChatMessages message history ++ [ConvEntry.assistantToolMsg msg]
          ++ (loopResults ora.fetch amapKey tcs).map toolResultEntry)
        ∈ (toolChat ora amapKey message history).2 := by
  obtain ⟨results, hres, hids⟩ := runToolLoop_ok ora.fetch amapKey hf tcs hwf
  have hlr : loopResults ora.fetch amapKey tcs = results := by
    simp [loopResults, hres]
  have hlen : results.length = tcs.length := by
    have h := congrArg List.length hids
    simpa using h
  have hisEmpty : tcs.isEmpty = false := by
    cases tcs with
    | nil => exact absurd rfl hne
    | cons a l => rfl
  obtain ⟨fm, hfm⟩ := exceptIsOk_ok (h2 (assembleToolChatMessages message history
      ++ [ConvEntry.assistantToolMsg msg] ++ results.map toolResultEntry))
  refine ⟨by rw [hlr]; exact hres, by rw [hlr]; exact hlen, by rw [hlr]; exact hids, ?_, ?_, ?_⟩
  · simp only [toolChat, h1, htc, hisEmpty, hres, hfm]
    simp
  · simp
  · rw [hlr]
    simp only [toolChat, h1, htc, hisEmpty, hres, hfm]
    simp [List.mem_append]

/-- Witness for `c1_tool_counts` at a concrete two-request first pass. -/
theorem c1_tool_counts_witness :
    (toolChat oraTwoTools none "plan" none).1.toolCalls = twoToolCalls.map callLogStr
    ∧ (loopResults oraTwoTools.fetch none twoToolCalls).map ToolResult.tool_call_id
        = ["c1", "c2"] := by
  have h := c1_tool_counts oraTwoTools none "plan" none ⟨some "", some twoToolCalls⟩
    twoToolCalls rfl rfl (by decide) (by decide) (fun _ => rfl) (fun _ => rfl)
  exact ⟨h.2.2.2.1, by rw [h.2.2.1]; decide⟩

/-- Counterexample to claim C2 as stated: if the completion service answers
with a null-content message and no tool calls, `chat` returns `content`
null, not non-null text. -/
theorem c2_counterexample :
    (toolChat oraNullContent none "hi" none).1.content = none := rfl

/-- Claim C2 (corrected): `toolChat` is total (each request yields a
structured content/toolCalls value, with `toolCalls` a list by
construction, and thrown faults are converted by the catch handler), and its
`content` is non-null provided the completion service never returns a
null-content message; without that proviso `content` can be null (see the
counterexample). -/
theorem c2_nonnull_content (ora : Oracle) (amapKey : Option String) (message : String)
    (history : Option (List HistTurn))
    (h1 : ∀ ms m, ora.complete1 ms = .ok m → m.content.isSome = true)
    (h2 : ∀ ms m, ora.complete2 ms = .ok m → m.content.isSome = true) :
    ((toolChat ora amapKey message history).1.content).isSome = true := by
  simp only [toolChat]
  split
  · rfl
  next msg heq =>
    split
    · exact h1 _ msg heq
    next tcs =>
      split
      · exact h1 _ msg heq
      · split
        · rfl
        next pair heqL =>
          split
          · rfl
          next fm heq2 => exact h2 _ fm heq2

/-- Witness for `c2_nonnull_content` with a concrete well-behaved oracle. -/
theorem c2_nonnull_content_witness :
    ((toolChat oraPlain none "hi" none).1.content).isSome = true := by
  refine c2_nonnull_content oraPlain none "hi" none ?_ ?_
  · intro ms m hm
    cases hm
    rfl
  · intro ms m hm
    cases hm
    rfl

/-- Counterexample to claim C3 as stated: in the `ctx.env` variant, when the
completion call throws an error carrying a message, the raw message text
(`connect ECONNREFUSED`) is returned as `content` instead of the fixed
user-safe message. -/
theorem c3_counterexample :
    (ctxEnvChat respondFail (some "K") none "hi" none).1.content = some "connect ECONNREFUSED"
    ∧ some "connect ECONNREFUSED" ≠ some fallbackContent := by
  exact ⟨rfl, by decide⟩

/-- Claim C3 (corrected): in the tool-orchestration variant, a throw from
either completion pass is caught and converted to exactly the fixed
user-safe message with `toolCalls = []`, never re-thrown; in the `ctx.env`
variant the catch handler instead surfaces the `message` text carried by the
thrown error when present, falling back to the fixed message only when it has
no message. -/
theorem c3_fault_conversion :
    (∀ (ora : Oracle) (amapKey : Option String) (message : String)
        (history : Option (List HistTurn)) (e : TsError),
        ora.complete1 (assembleToolChatMessages message history) = .error e →
        (toolChat ora amapKey message history).1 = ⟨some fallbackContent, []⟩)
    ∧ (∀ (ora : Oracle) (amapKey : Option String) (message : String)
        (history : Option (List HistTurn)) (msg : ChatMessage) (tcs : List ToolCall) (e : TsError),
        ora.complete1 (assembleToolChatMessages message history) = .ok msg →
        msg.tool_calls = some tcs → tcs ≠ [] →
        exceptIsOk (runToolLoop ora.fetch amapKey tcs).1 = true →
        (∀ ms, ora.complete2 ms = .error e) →
        (toolChat ora amapKey message history).1 = ⟨some fallbackContent, []⟩)
    ∧ (∀ (respondO : String → Except TsError RespObj) (ctxKey procKey : Option String)
        (message : String) (history : Option (List HistTurn)) (k : String) (e : TsError),
        truthyStr (jsOrStr ctxKey procKey) = some k →
        respondO (plainInput message history) = .error e →
        (ctxEnvChat respondO ctxKey procKey message history).1
          = ⟨some (e.message.getD fallbackContent), []⟩) := by
  refine ⟨?_, ?_, ?_⟩
  · intro ora amapKey message history e h
    simp [toolChat, h]
  · intro ora amapKey message history msg tcs e h1 htc hne hL h2
    have hisEmpty : tcs.isEmpty = false := by
      cases tcs with
      | nil => exact absurd rfl hne
      | cons a l => rfl
    obtain ⟨pair, hpair⟩ := exceptIsOk_ok hL
    simp only [toolChat, h1, htc, hisEmpty, hpair, h2]
    simp
  · intro respondO ctxKey procKey message history k e hk hr
    simp [ctxEnvChat, hk, hr]

/-- Witness for `c3_fault_conversion` at concrete throwing oracles. -/
theorem c3_fault_conversion_witness :
    (toolChat oraFail none "hi" none).1 = ⟨some fallbackContent, []⟩
    ∧ (ctxEnvChat respondFail (some "K") none "hi" none).1
        = ⟨some "connect ECONNREFUSED", []⟩ := by
  refine ⟨c3_fault_conversion.1 oraFail none "hi" none errNet rfl, ?_⟩
  have h := c3_fault_conversion.2.2 respondFail (some "K") none "hi" none "K" errNet
    (by simp [truthyStr, jsOrStr]) rfl
  simpa [errNet] using h

/-- Counterexample to claim C4 as stated: a history turn with an empty role
appears verbatim in the sequence the tool-orchestration variant sends to the
first completion pass (the variant splices `...(history || [])` without
filtering). -/
theorem c4_counterexample :
    ConvEntry.turn "" "oops" ∈ assembleToolChatMessages "hi" (some [⟨"", "oops"⟩])
    ∧ ((toolChat oraPlain none "hi" (some [⟨"", "oops"⟩])).2).head?
        = some (Event.completionCall 1 (assembleToolChatMessages "hi" (some [⟨"", "oops"⟩]))) := by
  exact ⟨by decide, toolChat_trace_head oraPlain none "hi" (some [⟨"", "oops"⟩])⟩

/-- Claim C4 (corrected): the sequence is assembled as fixed system
instruction, then history, then the new user turn, and the first completion
pass receives exactly that sequence — but in the tool-orchestration variant
the history is spliced verbatim, so an ill-formed turn (empty role or
content) does appear in it; only the `ctx.env`/`getOpenAI` variants drop
such turns via their history filter. -/
theorem c4_history_filtering (message : String) (history : List HistTurn) (t : HistTurn)
    (ora : Oracle) (amapKey : Option String)
    (ht : t ∈ history) (hbad : t.role = "" ∨ t.content = "") :
    ConvEntry.turn t.role t.content ∈ assembleToolChatMessages message (some history)
    ∧ ((toolChat ora amapKey message (some history)).2).head?
        = some (Event.completionCall 1 (assembleToolChatMessages message (some history)))
    ∧ t ∉ filteredHistory (some history) := by
  refine ⟨?_, toolChat_trace_head ora amapKey message (some history), ?_⟩
  · unfold assembleToolChatMessages
    have hm : ConvEntry.turn t.role t.content
        ∈ (history.map (fun m => ConvEntry.turn m.role m.content)) :=
      List.mem_map_of_mem (fun m => ConvEntry.turn m.role m.content) ht
    refine List.mem_append_left _ (List.mem_cons_of_mem _ ?_)
    simpa using hm
  · intro hmem
    rw [filteredHistory] at hmem
    simp only [Option.getD] at hmem
    rw [List.mem_filter] at hmem
    rcases hbad with h | h <;> simp [h] at hmem

/-- Witness for `c4_history_filtering` at a concrete ill-formed turn. -/
theorem c4_history_filtering_witness :
    ConvEntry.turn "" "x" ∈ assembleToolChatMessages "hi" (some [⟨"", "x"⟩])
    ∧ (⟨"", "x"⟩ : HistTurn) ∉ filteredHistory (some [⟨"", "x"⟩]) := by
  have h := c4_history_filtering "hi" [⟨"", "x"⟩] ⟨"", "x"⟩ oraPlain none
    (by simp) (Or.inl rfl)
  exact ⟨h.1, h.2.2⟩

/-- Counterexample to claim C7 as stated: in the tool-orchestration variant
a missing credential does not short-circuit — the first completion call is
still issued (it is the head of the trace) and the result is the generic
fallback text, which is not either configuration-error message. -/
theorem c7_counterexample :
    (toolChat oraNoKey none "hi" none).1 = ⟨some fallbackContent, []⟩
    ∧ (toolChat oraNoKey none "hi" none).2
        = [Event.completionCall 1 (assembleToolChatMessages "hi" none)]
    ∧ fallbackContent ≠ getOpenAIConfigMsg ∧ fallbackContent ≠ ctxEnvConfigMsg := by
  exact ⟨rfl, rfl, by decide, by decide⟩

/-- Claim C7 (corrected): the `getOpenAI` and `ctx.env` variants
short-circuit before any completion or tool call when the credential is
absent, returning their configuration-error message with `toolCalls = []`
and an empty outbound-call trace; the tool-orchestration variant performs no
credential check in `chat` at all — its first outbound call is always the
pass-1 completion call. -/
theorem c7_config_shortcircuit :
    (∀ (respondO : String → Except TsError RespObj) (message : String)
        (history : Option (List HistTurn)),
        getOpenAIChat respondO none none message history = (⟨some getOpenAIConfigMsg, []⟩, []))
    ∧ (∀ (respondO : String → Except TsError RespObj) (message : String)
        (history : Option (List HistTurn)),
        ctxEnvChat respondO none none message history = (⟨some ctxEnvConfigMsg, []⟩, []))
    ∧ (∀ (ora : Oracle) (amapKey : Option String) (message : String)
        (history : Option (List HistTurn)),
        ((toolChat ora amapKey message history).2).head?
          = some (Event.completionCall 1 (assembleToolChatMessages message history))) :=
  ⟨fun _ _ _ => rfl, fun _ _ _ => rfl,
   fun ora amapKey message history => toolChat_trace_head ora amapKey message history⟩

/-- Counterexample to claim C8 as stated: a request for the unregistered
tool `lookupWeather` is recorded as a `ToolResult` whose payload is the
empty string — it does not describe the unknown-tool condition — and it
contributes no log entry. -/
theorem c8_counterexample :
    (runToolLoop oraUnknown.fetch (some "K")
        [ToolCall.function "call_1" ⟨"lookupWeather", some {}⟩]).1
      = .ok ([⟨"call_1", "tool", "lookupWeather", ""⟩], [])
    ∧ (toolChat oraUnknown (some "K") "hi" none).1.toolCalls
        = [geocodeLogEntry (some "Beijing")] := by
  exact ⟨rfl, rfl⟩

/-- Claim C8 (corrected): an unknown tool name is non-fatal — the loop still
records exactly one `ToolResult` for the request (so processing continues
with the remaining requests unchanged), but the recorded payload is the
empty string left in `result`, not a description of the unknown-tool
condition, and no log entry is pushed. -/
theorem c8_unknown_tool (fetchO : HttpReq → Except TsError FetchResp) (amapKey : Option String)
    (cid name : String) (args : ToolArgs) (rest : List ToolCall)
    (hunknown : knownToolName name = false) :
    runToolLoop fetchO amapKey (ToolCall.function cid ⟨name, some args⟩ :: rest)
      = ((runToolLoop fetchO amapKey rest).1.map
          (fun p => (⟨cid, "tool", name, ""⟩ :: p.1, p.2)),
         (runToolLoop fetchO amapKey rest).2) := by
  have h123 : (¬name = "amapSearchPOI" ∧ ¬name = "amapGetRoute") ∧ ¬name = "amapGeocode" := by
    simpa [knownToolName] using hunknown
  simp only [runToolLoop, dispatchOne]
  simp only [h123.1.1, h123.1.2, h123.2, beq_iff_eq, if_neg, reduceCtorEq]
  simp only [if_false]
  cases hr : (runToolLoop fetchO amapKey rest).1 with
  | error e => simp [hr, Except.map]
  | ok pr => simp [hr, Except.map, Option.toList]

/-- Witness for `c8_unknown_tool` at a concrete unknown name. -/
theorem c8_unknown_tool_witness :
    runToolLoop fetchOk none [ToolCall.function "a" ⟨"zzz", some {}⟩]
      = (.ok ([⟨"a", "tool", "zzz", ""⟩], []), []) := by
  have h := c8_unknown_tool fetchOk none "a" "zzz" {} [] (by decide)
  simpa using h
